import Mathlib

/-!
Verification of the ingestion-and-publishing pipeline of the repository
(crawlers/news_crawler.py, processors/content_processor.py, notion/notion_client.py)
against its natural-language specification.

Machine integers are modelled as `Nat` with explicit `% 2 ^ 32`; Python dicts whose
key sets vary are modelled as structures with `Option` fields or association lists;
external collaborators (HTTP, feedparser, BeautifulSoup, dateutil, the Groq and
Notion APIs) are modelled as explicit oracle parameters.
-/

set_option maxRecDepth 20000

namespace AIGptGod

/-! ### Python string helpers

`pyLower` models `str.lower` (ASCII range, which covers every keyword in the code),
`containsSub` models Python's substring test `needle in hay`, and `isPre` is the
prefix check it is built on. -/

def pyLower (s : String) : String := String.mk (s.data.map Char.toLower)

def isPre : List Char → List Char → Bool
  | [], _ => true
  | _ :: _, [] => false
  | a :: as, b :: bs => a == b && isPre as bs

def containsSub : List Char → List Char → Bool
  | [], n => n.isEmpty
  | c :: t, n => isPre n (c :: t) || containsSub t n

def strContains (hay needle : String) : Bool := containsSub hay.data needle.data

/-! ### MD5 (hashlib.md5(...).hexdigest() over the UTF-8 encoding)

32-bit words are `Nat` values kept below `2 ^ 32`; the bitwise operations are
defined by structural recursion on a 32-step fuel so that the kernel can
evaluate them. -/

def bit2 (f : Nat → Nat → Nat) : Nat → Nat → Nat → Nat
  | 0, _, _ => 0
  | k + 1, x, y => f (x % 2) (y % 2) + 2 * bit2 f k (x / 2) (y / 2)

def land32 (x y : Nat) : Nat := bit2 (fun a b => a * b) 32 x y

def lor32 (x y : Nat) : Nat := bit2 (fun a b => a + b - a * b) 32 x y

def lxor32 (x y : Nat) : Nat := bit2 (fun a b => (a + b) % 2) 32 x y

def lnot32 (x : Nat) : Nat := 0xFFFFFFFF - x % 2 ^ 32

def rotl32 (x s : Nat) : Nat := (x % 2 ^ (32 - s)) * 2 ^ s + x / 2 ^ (32 - s)

def utf8Bytes (c : Nat) : List Nat :=
  if c < 0x80 then [c]
  else if c < 0x800 then [0xC0 + c / 64, 0x80 + c % 64]
  else if c < 0x10000 then [0xE0 + c / 4096, 0x80 + c / 64 % 64, 0x80 + c % 64]
  else [0xF0 + c / 0x40000, 0x80 + c / 4096 % 64, 0x80 + c / 64 % 64, 0x80 + c % 64]

def strBytes (s : String) : List Nat := (s.data.map (fun c => utf8Bytes c.toNat)).flatten

def leBytes (n v : Nat) : List Nat := (List.range n).map (fun i => v / 2 ^ (8 * i) % 256)

def md5K : List Nat :=
  [0xd76aa478, 0xe8c7b756, 0x242070db, 0xc1bdceee,
   0xf57c0faf, 0x4787c62a, 0xa8304613, 0xfd469501,
   0x698098d8, 0x8b44f7af, 0xffff5bb1, 0x895cd7be,
   0x6b901122, 0xfd987193, 0xa679438e, 0x49b40821,
   0xf61e2562, 0xc040b340, 0x265e5a51, 0xe9b6c7aa,
   0xd62f105d, 0x02441453, 0xd8a1e681, 0xe7d3fbc8,
   0x21e1cde6, 0xc33707d6, 0xf4d50d87, 0x455a14ed,
   0xa9e3e905, 0xfcefa3f8, 0x676f02d9, 0x8d2a4c8a,
   0xfffa3942, 0x8771f681, 0x6d9d6122, 0xfde5380c,
   0xa4beea44, 0x4bdecfa9, 0xf6bb4b60, 0xbebfbc70,
   0x289b7ec6, 0xeaa127fa, 0xd4ef3085, 0x04881d05,
   0xd9d4d039, 0xe6db99e5, 0x1fa27cf8, 0xc4ac5665,
   0xf4292244, 0x432aff97, 0xab9423a7, 0xfc93a039,
   0x655b59c3, 0x8f0ccc92, 0xffeff47d, 0x85845dd1,
   0x6fa87e4f, 0xfe2ce6e0, 0xa3014314, 0x4e0811a1,
   0xf7537e82, 0xbd3af235, 0x2ad7d2bb, 0xeb86d391]

def md5S : List Nat :=
  [7, 12, 17, 22, 7, 12, 17, 22, 7, 12, 17, 22, 7, 12, 17, 22,
   5, 9, 14, 20, 5, 9, 14, 20, 5, 9, 14, 20, 5, 9, 14, 20,
   4, 11, 16, 23, 4, 11, 16, 23, 4, 11, 16, 23, 4, 11, 16, 23,
   6, 10, 15, 21, 6, 10, 15, 21, 6, 10, 15, 21, 6, 10, 15, 21]

structure MD5State where
  a : Nat
  b : Nat
  c : Nat
  d : Nat

def mword (chunk : List Nat) (g : Nat) : Nat :=
  chunk.getD (4 * g) 0 + 256 * chunk.getD (4 * g + 1) 0 +
    65536 * chunk.getD (4 * g + 2) 0 + 16777216 * chunk.getD (4 * g + 3) 0

def md5Round (chunk : List Nat) (st : MD5State) (i : Nat) : MD5State :=
  let f :=
    if i < 16 then lor32 (land32 st.b st.c) (land32 (lnot32 st.b) st.d)
    else if i < 32 then lor32 (land32 st.d st.b) (land32 (lnot32 st.d) st.c)
    else if i < 48 then lxor32 (lxor32 st.b st.c) st.d
    else lxor32 st.c (lor32 st.b (lnot32 st.d))
  let g :=
    if i < 16 then i
    else if i < 32 then (5 * i + 1) % 16
    else if i < 48 then (3 * i + 5) % 16
    else 7 * i % 16
  let f2 := (f + st.a + md5K.getD i 0 + mword chunk g) % 2 ^ 32
  ⟨st.d, (st.b + rotl32 f2 (md5S.getD i 0)) % 2 ^ 32, st.b, st.c⟩

def md5Chunk (st : MD5State) (chunk : List Nat) : MD5State :=
  let r := (List.range 64).foldl (md5Round chunk) st
  ⟨(st.a + r.a) % 2 ^ 32, (st.b + r.b) % 2 ^ 32, (st.c + r.c) % 2 ^ 32, (st.d + r.d) % 2 ^ 32⟩

def md5Pad (msg : List Nat) : List Nat :=
  msg ++ [0x80] ++ List.replicate ((120 - (msg.length + 1) % 64) % 64) 0 ++
    leBytes 8 (msg.length * 8 % 2 ^ 64)

def chunks64 : Nat → List Nat → List (List Nat)
  | 0, _ => []
  | _ + 1, [] => []
  | fuel + 1, l => l.take 64 :: chunks64 fuel (l.drop 64)

def md5Digest (msg : List Nat) : List Nat :=
  let padded := md5Pad msg
  let fin := (chunks64 (padded.length + 1) padded).foldl md5Chunk
    ⟨0x67452301, 0xefcdab89, 0x98badcfe, 0x10325476⟩
  leBytes 4 fin.a ++ leBytes 4 fin.b ++ leBytes 4 fin.c ++ leBytes 4 fin.d

def hexDigit (n : Nat) : Char := if n < 10 then Char.ofNat (48 + n) else Char.ofNat (87 + n)

def md5Hex (msg : List Nat) : String :=
  String.mk (((md5Digest msg).map (fun b => [hexDigit (b / 16), hexDigit (b % 16)])).flatten)

theorem md5Hex_empty : md5Hex (strBytes "") = "d41d8cd98f00b204e9800998ecf8427e" := by decide

theorem md5Hex_abc : md5Hex (strBytes "abc") = "900150983cd24fb0d6963f7d28e17f72" := by decide

/-! ### Crawler data model (crawlers/news_crawler.py)

A feedparser entry is a dict; its string-valued keys are modelled as an
association list (`entry.get(k, d)` is `(fields.lookup k).getD d`) and its
`tags` key as a list of optional `term` values.  A source's YAML config is the
`SourceConfig` structure (`type` defaults to `"rss"`).  The external collaborators
reached from `_parse_feed_entry` — BeautifulSoup's `get_text`, `dateutil`'s date
parser (`none` models a parse exception) and the current UTC time — are the
`ParseDeps` oracle. -/

structure Entry where
  fields : List (String × String) := []
  tags : List (Option String) := []
deriving DecidableEq

def Entry.get (e : Entry) (k : String) : Option String := e.fields.lookup k

structure ParserConfig where
  title_selector : Option String := none
  content_selector : Option String := none
  link_selector : Option String := none
  date_selector : Option String := none
deriving DecidableEq

structure SourceConfig where
  type' : String := "rss"
  name : Option String := none
  keywords : List String := []
  parser_config : ParserConfig := {}
  feed_url : String := ""
deriving DecidableEq

structure ParseDeps where
  stripHtml : String → String
  parseDate : String → Option String
  now : String

structure Article where
  id : String
  title : String
  content : String
  summary : String
  link : String
  source : String
  image_url : String
  published_date : String
deriving DecidableEq

/-! `findCaptures m s` models `re.findall(r'm([^"]+)"', s)` for the two patterns
used in `_parse_feed_entry` (`src="([^"]+)"` and `<img src="([^"]+)"`): scan for
the literal marker, capture a maximal nonempty run of non-quote characters that
must be terminated by a closing quote, and continue after it.  A fuel argument
makes the scan structurally total. -/

def scanCaptures (marker : List Char) : Nat → List Char → List String
  | 0, _ => []
  | _ + 1, [] => []
  | fuel + 1, c :: t =>
    if isPre marker (c :: t) then
      let afterM := (c :: t).drop marker.length
      let cap := afterM.takeWhile (fun x => x ≠ '"')
      let afterC := afterM.drop cap.length
      if cap ≠ [] ∧ afterC.head? = some '"' then
        String.mk cap :: scanCaptures marker fuel (afterC.drop 1)
      else scanCaptures marker fuel t
    else scanCaptures marker fuel t

def findCaptures (marker s : String) : List String :=
  scanCaptures marker.data (s.data.length + 1) s.data

/-- `_parse_feed_entry`: the local variable `image_url` is only assigned on the
`rsshub`+`aibase` and `rsshub`+`techcrunch` branches; `none` here models the
`UnboundLocalError` (any other source kind/name) or the `AttributeError`
(`re.search(...).group(1)` with no match on the techcrunch branch), both of which
are caught by the surrounding handler, which returns `None`. -/
def parseImage (sc : SourceConfig) (e : Entry) : Option String :=
  if sc.type' = "rsshub" then
    if sc.name = some "aibase" then
      some ((findCaptures "src=\"" ((e.get "summary").getD "")).headD "")
    else if sc.name = some "techcrunch" then
      (if (e.get "summary").getD "" ≠ "" then
        (findCaptures "<img src=\"" ((e.get "summary").getD "")).head?
      else some "")
    else none
  else none

def parsedTitle (e : Entry) (sc : SourceConfig) : String :=
  if sc.type' = "rsshub" then (e.get (sc.parser_config.title_selector.getD "title")).getD ""
  else (e.get "title").getD ""

def parsedLink (e : Entry) (sc : SourceConfig) : String :=
  if sc.type' = "rsshub" then (e.get (sc.parser_config.link_selector.getD "link")).getD ""
  else (e.get "link").getD ""

/-- Raw content: `entry.get('description', '') or entry.get('summary', '')` on the
plain-RSS branch (`or` takes the second operand when the first is falsy/empty). -/
def parsedRawContent (e : Entry) (sc : SourceConfig) : String :=
  if sc.type' = "rsshub" then (e.get (sc.parser_config.content_selector.getD "description")).getD ""
  else if (e.get "description").getD "" = "" then (e.get "summary").getD ""
  else (e.get "description").getD ""

/-- `if content: content = BeautifulSoup(content...).get_text(...)`. -/
def parsedContent (d : ParseDeps) (e : Entry) (sc : SourceConfig) : String :=
  if parsedRawContent e sc = "" then parsedRawContent e sc
  else d.stripHtml (parsedRawContent e sc)

def parsedPublished (e : Entry) (sc : SourceConfig) : String :=
  if sc.type' = "rsshub" then (e.get (sc.parser_config.date_selector.getD "pubDate")).getD ""
  else if (e.get "published").getD "" = "" then (e.get "pubDate").getD ""
  else (e.get "published").getD ""

/-- Date standardisation: empty raw date or a parser exception both fall back to
the current UTC time. -/
def parsedDate (d : ParseDeps) (e : Entry) (sc : SourceConfig) : String :=
  if parsedPublished e sc = "" then d.now
  else (d.parseDate (parsedPublished e sc)).getD d.now

def buildArticle (d : ParseDeps) (e : Entry) (source_name : String) (sc : SourceConfig)
    (img : String) : Article :=
  { id := md5Hex (strBytes (parsedLink e sc)),
    title := parsedTitle e sc,
    content := parsedContent d e sc,
    summary := "",
    link := parsedLink e sc,
    source := source_name,
    image_url := img,
    published_date := parsedDate d e sc }

def parse_feed_entry (d : ParseDeps) (e : Entry) (source_name : String)
    (sc : SourceConfig) : Option Article :=
  match parseImage sc e with
  | none => none
  | some img => some (buildArticle d e source_name sc img)

/-! ### `_is_ai_related` -/

def builtinAiModelKeywords : List String :=
  ["gpt", "llm", "large language model", "chatgpt", "claude", "gemini",
   "anthropic", "mistral", "llama", "palm", "bert", "transformer"]

def builtinTechCompanyKeywords : List String :=
  ["openai", "google", "microsoft", "meta", "apple", "amazon",
   "anthropic", "tesla", "nvidia", "baidu", "alibaba", "tencent"]

def builtinAiTechKeywords : List String :=
  ["artificial intelligence", "machine learning", "deep learning",
   "neural network", "ai model", "foundation model", "generative ai"]

/-- The keyword set actually consulted: the three hard-coded sets united with the
lowercased configured keywords (Python set union; only membership is ever used,
so a concatenated list is an adequate model). -/
def allKeywordsLower (kws : List String) : List String :=
  builtinAiModelKeywords ++ builtinTechCompanyKeywords ++ builtinAiTechKeywords ++
    kws.map pyLower

def textToCheck (e : Entry) : String :=
  pyLower ((e.get "title").getD "") ++ " " ++ pyLower ((e.get "summary").getD "") ++ " " ++
    String.intercalate " " (e.tags.map (fun t => pyLower (t.getD "")))

def is_ai_related (e : Entry) (keywords : List String) : Bool :=
  (allKeywordsLower keywords).any (fun k => strContains (pyLower ((e.get "title").getD "")) k) ||
    (allKeywordsLower keywords).any (fun k => strContains (textToCheck e) k)

/-! ### `_deduplicate_articles`

`seen_urls` first-seen filtering (note the Python truthiness test
`if article['link'] and ...`: an empty link is never appended), then
`sorted(..., key=published_date, reverse=True)`.  Python's sort is stable and
`reverse=True` keeps equal keys in their original order, which is exactly the
behaviour of this descending insertion sort. -/

def dedupAux (seen : List String) : List Article → List Article
  | [] => []
  | a :: rest =>
    if a.link ≠ "" ∧ a.link ∉ seen then a :: dedupAux (a.link :: seen) rest
    else dedupAux seen rest

def insertDescPD (a : Article) : List Article → List Article
  | [] => [a]
  | b :: bs => if b.published_date ≤ a.published_date then a :: b :: bs else b :: insertDescPD a bs

def sortByDateDesc : List Article → List Article
  | [] => []
  | x :: xs => insertDescPD x (sortByDateDesc xs)

def deduplicate_articles (articles : List Article) : List Article :=
  sortByDateDesc (dedupAux [] articles)

/-! ### `_fetch_from_source` and `fetch_news`

The HTTP response and the feedparser outcome are per-source oracle data.
`fetch_from_source_body` is the body of the `try:` block (`Except.error` models an
exception escaping it — aiohttp errors, timeouts); the outer handler turns any
exception into `[]`. -/

inductive HttpResult where
  | error : HttpResult
  | resp (status : Nat) (text : String) : HttpResult
deriving DecidableEq

inductive FeedParse where
  | failure : FeedParse
  | entries (es : List Entry) : FeedParse
deriving DecidableEq

structure SourceFetch where
  source_name : String
  config : SourceConfig
  deps : ParseDeps
  http : HttpResult
  parsed : FeedParse

/-- The per-entry loop: skip non-relevant entries (`continue`), append parsed
articles (a per-entry exception, i.e. `parse` returning `none`, is caught and
skipped), and `break` once 50 articles have been collected. -/
def entriesLoop (parse : Entry → Option Article) (isRel : Entry → Bool) :
    List Entry → List Article → List Article
  | [], acc => acc
  | e :: rest, acc =>
    if isRel e = false then entriesLoop parse isRel rest acc
    else
      match parse e with
      | some a =>
        if 50 ≤ (acc ++ [a]).length then acc ++ [a]
        else entriesLoop parse isRel rest (acc ++ [a])
      | none =>
        if 50 ≤ acc.length then acc
        else entriesLoop parse isRel rest acc

def fetch_from_source_body (s : SourceFetch) : Except Unit (List Article) :=
  match s.http with
  | HttpResult.error => Except.error ()
  | HttpResult.resp status text =>
    if status ≠ 200 then Except.ok []
    else if text = "" then Except.ok []
    else
      match s.parsed with
      | FeedParse.failure => Except.ok []
      | FeedParse.entries es =>
        Except.ok (entriesLoop (fun e => parse_feed_entry s.deps e s.source_name s.config)
          (fun e => is_ai_related e s.config.keywords) es [])

def fetch_from_source (s : SourceFetch) : List Article :=
  match fetch_from_source_body s with
  | Except.error _ => []
  | Except.ok l => l

/-- `fetch_news`: gather all per-source results (none of which can raise, by
construction of `fetch_from_source`), concatenate, deduplicate. -/
def fetch_news (inputs : List SourceFetch) : List Article :=
  deduplicate_articles ((inputs.map fetch_from_source).flatten)

/-! ### Content processor (processors/content_processor.py)

The Groq chat-completion call is an attempt-indexed oracle.  `ApiResp.ok none`
models a response whose `message.content` is `None`, `noChoices` a response with
no usable `choices`, `rateLimited`/`apiError` exceptions raised by the client
(a rate-limit error may carry a server-suggested wait in seconds).
`generate_summaryRun` additionally records how many API attempts were made and
which waits (in seconds) were performed, so that retry behaviour is observable. -/

inductive ApiResp where
  | ok (msg : Option String) : ApiResp
  | noChoices : ApiResp
  | rateLimited (suggestedWait : Option Nat) : ApiResp
  | apiError : ApiResp

structure SummRun where
  result : String
  attempts : Nat
  waits : List Nat
deriving DecidableEq

/-- `_generate_summary`: a single `create` call inside `try/except`; any exception
yields `""`.  There is no loop, so exactly one attempt and no waiting. -/
def generate_summaryRun (api : Nat → ApiResp) (_content : String) : SummRun :=
  match api 0 with
  | ApiResp.ok (some m) => ⟨m, 1, []⟩
  | ApiResp.ok none => ⟨"", 1, []⟩
  | ApiResp.noChoices => ⟨"", 1, []⟩
  | ApiResp.rateLimited _ => ⟨"", 1, []⟩
  | ApiResp.apiError => ⟨"", 1, []⟩

def generate_summary (api : Nat → ApiResp) (content : String) : String :=
  (generate_summaryRun api content).result

/-- A processed article is a dict; the keys that `_process_single_article` no
longer populates (their producers are commented out in the source) are `Option`
fields, `none` modelling an absent key.  Sentiment scores are modelled over `ℚ`
(the numeric value never matters to the claims, only whether the keys exist). -/
structure Sentiment where
  score : ℚ
  label : String
deriving DecidableEq

structure PArticle where
  id : String := ""
  title : String := ""
  content : String := ""
  summary : String := ""
  link : String := ""
  source : String := ""
  image_url : String := ""
  published_date : String := ""
  sentiment : Option Sentiment := none
  key_points : Option (List String) := none
  category : Option String := none
  relevance_score : Option ℚ := none
deriving DecidableEq

def category_weights : List (String × ℚ) :=
  [("technical_innovation", 1), ("business_application", 4/5),
   ("policy_regulation", 7/10), ("research_progress", 9/10), ("uncategorized", 1/2)]

/-- `_calculate_relevance` reads `article['sentiment']['score']`,
`article['key_points']` and `article['category']`; a missing key raises
`KeyError`, modelled by `none`. -/
def calculate_relevance (a : PArticle) : Option ℚ :=
  match a.sentiment, a.key_points, a.category with
  | some s, some kp, some c =>
    some (min (|s.score| * (3/10) + min ((kp.length : ℚ) / 5) 1 * (3/10) +
      ((category_weights.lookup c).getD (1/2)) * (4/10)) 1)
  | _, _, _ => none

/-- `_process_single_article`: copy, set the summary, then compute the relevance
score; `none` models the uncaught `KeyError` escaping to the caller. -/
def process_single_article (api : Nat → ApiResp) (a : PArticle) : Option PArticle :=
  match calculate_relevance { a with summary := generate_summary api a.content } with
  | none => none
  | some r => some { a with summary := generate_summary api a.content, relevance_score := some r }

def insertDescRel (a : PArticle) : List PArticle → List PArticle
  | [] => [a]
  | b :: bs =>
    if (b.relevance_score).getD 0 ≤ (a.relevance_score).getD 0 then a :: b :: bs
    else b :: insertDescRel a bs

/-- `_sort_by_relevance`: stable descending sort on `relevance_score` (every
article reaching it has the key set, so `getD 0` is never exercised). -/
def sort_by_relevance : List PArticle → List PArticle
  | [] => []
  | x :: xs => insertDescRel x (sort_by_relevance xs)

/-- `process_articles`: per-article exceptions are caught and the article is
skipped (`continue`), which `filterMap` models exactly. -/
def process_articles (api : Nat → ApiResp) (articles : List PArticle) : List PArticle :=
  sort_by_relevance (articles.filterMap (process_single_article api))

/-! ### Notion publisher (notion/notion_client.py)

`NotionState` is the externally visible persistent state: the `notion.json`
ledger of synced ids, today's report page (if any) with its URL, and the set of
ids matched by the `article_ids` database query behind `_article_exists`.
`SyncResult.appended` is the list of articles actually rendered into content
blocks and appended to the destination page. -/

structure PubArticle where
  id : String := ""
  title : String := ""
  summary : String := ""
  url : String := ""
  image_url : String := ""
  published_date : String := ""
deriving DecidableEq

structure Report where
  date : String := ""
  articles : List PubArticle := []
deriving DecidableEq

structure NotionState where
  ledger : List String := []
  todayPage : Option (String × String) := none
  dbArticleIds : List String := []
deriving DecidableEq

/-- `_save_synced_articles`: `list(set(existing + new))`; Python's set union has
unspecified order and every consumer only tests membership, so the union is
modelled as append-new-members. -/
def save_synced (st : NotionState) (ids : List String) : NotionState :=
  { st with ledger := st.ledger ++ ids.filter (fun i => !(decide (i ∈ st.ledger))) }

/-- The two `continue` guards of `_add_articles`: skip when the id is nonempty and
already found by `_article_exists`, and skip when the summary exceeds 2000
characters. -/
def keepArticle (st : NotionState) (a : PubArticle) : Bool :=
  !(decide (a.id ≠ "") && decide (a.id ∈ st.dbArticleIds)) && decide (a.summary.length ≤ 2000)

/-- `_add_articles`: build blocks for the surviving articles; if any survive,
append the blocks and record their ids.  Returns the new state and the list of
articles appended as blocks. -/
def add_articles (st : NotionState) (_parent : String) (articles : List PubArticle) :
    NotionState × List PubArticle :=
  (if articles.filter (keepArticle st) = [] then st
   else save_synced st ((articles.filter (keepArticle st)).map PubArticle.id),
   articles.filter (keepArticle st))

structure SyncResult where
  state : NotionState
  url : Option String
  appended : List PubArticle
  createdPage : Bool
deriving DecidableEq

/-- `sync_report`: load the ledger, filter the report's articles to unsynced ids,
return `None` when none remain, otherwise find or create today's page
(`fresh` is the id/URL the Notion API would mint for a newly created page),
add the articles and record all the filtered ids. -/
def sync_report (st : NotionState) (r : Report) (fresh : String × String) : SyncResult :=
  if r.articles.filter (fun a => decide (a.id ∉ st.ledger)) = [] then ⟨st, none, [], false⟩
  else
    match st.todayPage with
    | some pp =>
      ⟨save_synced (add_articles st pp.1 (r.articles.filter (fun a => decide (a.id ∉ st.ledger)))).1
          ((r.articles.filter (fun a => decide (a.id ∉ st.ledger))).map PubArticle.id),
       some pp.2,
       (add_articles st pp.1 (r.articles.filter (fun a => decide (a.id ∉ st.ledger)))).2,
       false⟩
    | none =>
      ⟨save_synced
          (add_articles { st with todayPage := some fresh } fresh.1
            (r.articles.filter (fun a => decide (a.id ∉ st.ledger)))).1
          ((r.articles.filter (fun a => decide (a.id ∉ st.ledger))).map PubArticle.id),
       some fresh.2,
       (add_articles { st with todayPage := some fresh } fresh.1
         (r.articles.filter (fun a => decide (a.id ∉ st.ledger)))).2,
       true⟩

/-! ## Claim C3: retry/backoff around the summarization call -/

/-- An always-rate-limited API whose error suggests a 65-second wait. -/
def rl65Api : Nat → ApiResp := fun _ => ApiResp.rateLimited (some 65)

/-- Claim C3 counterexample: facing a rate-limit signal that suggests a 65.0s
wait, `_generate_summary` performs a total wait of 0 seconds (less than the
suggested 65) and makes exactly one attempt — there is no retry loop, no
backoff and no honouring of the suggested wait, contradicting the claimed
"waits the server-suggested duration" / "3 attempts" behaviour. -/
theorem C3_counterexample :
    (generate_summaryRun rl65Api "x").waits.sum < 65 ∧
    (generate_summaryRun rl65Api "x").attempts = 1 := by
  constructor
  · decide
  · rfl

/-- Claim C3 amended: the summarization call makes exactly one API attempt,
performs no waiting at all, and never raises: it returns the API's message when
one is produced and the empty string on any failure (rate-limit included). -/
theorem C3_amended (api : Nat → ApiResp) (content : String) :
    (generate_summaryRun api content).attempts = 1 ∧
    (generate_summaryRun api content).waits = [] ∧
    (generate_summaryRun api content).result =
      (match api 0 with
       | ApiResp.ok (some m) => m
       | _ => "") := by
  unfold generate_summaryRun
  cases h : api 0 with
  | ok m => cases m <;> simp
  | noChoices => simp
  | rateLimited w => simp
  | apiError => simp

/-! ## Claim C2: a failed summarization never drops an article -/

/-- An article exactly as `_parse_feed_entry` produces it: no `sentiment`,
`key_points` or `category` keys. -/
def crawlerPArticle : PArticle :=
  { id := "i", title := "t", content := "c", summary := "", link := "u",
    source := "s", image_url := "", published_date := "2025-01-01 00:00:00 UTC" }

/-- An API whose summarization succeeds. -/
def apiOkSum : Nat → ApiResp := fun _ => ApiResp.ok (some "sum")

/-- Claim C2 (code bug): even with a *successful* summarization, a
crawler-produced article is dropped from the batch — `_calculate_relevance`
raises `KeyError('sentiment')` because the steps that populate `sentiment`,
`key_points` and `category` are commented out, `process_articles` catches the
exception and skips the article, so the output is empty instead of containing
one entry per input article. -/
theorem C2_code_bug_eval : process_articles apiOkSum [crawlerPArticle] = [] := rfl

/-! ## Claim C8: the 2000-character summary bound -/

/-- A 2001-character API reply. -/
def longStr : String := String.mk (List.replicate 2001 'a')

def api2001 : Nat → ApiResp := fun _ => ApiResp.ok (some longStr)

/-- Claim C8 counterexample: the Summarizer hands a 2001-character summary
downstream untouched — `_generate_summary` performs no truncation, so the
claimed "at most 2000 characters, enforced by the Summarizer itself" bound
fails. -/
theorem C8_counterexample : 2000 < (generate_summary api2001 "c").length := by
  show 2000 < longStr.length
  have h : longStr.length = 2001 := by
    simp [longStr, String.length]
  omega

/-- Claim C8 amended: the Summarizer itself never truncates — it returns the API
message verbatim (or empty) — and the 2000-character bound is instead enforced
at publish time: `_add_articles` drops (rather than truncates) any article whose
summary exceeds 2000 characters, so every article it appends as blocks has a
summary of at most 2000 characters. -/
theorem C8_amended (api : Nat → ApiResp) (c : String) (st : NotionState) (pid : String)
    (arts : List PubArticle) (a : PubArticle) :
    (generate_summary api c =
      (match api 0 with
       | ApiResp.ok (some m) => m
       | _ => "")) ∧
    (a ∈ (add_articles st pid arts).2 → a.summary.length ≤ 2000) := by
  constructor
  · unfold generate_summary generate_summaryRun
    cases h : api 0 with
    | ok m => cases m <;> simp
    | noChoices => simp
    | rateLimited w => simp
    | apiError => simp
  · intro h
    simp only [add_articles] at h
    have hk : keepArticle st a = true := (List.mem_filter.mp h).2
    have h2 : decide (a.summary.length ≤ 2000) = true := by
      simp only [keepArticle, Bool.and_eq_true] at hk
      exact hk.2
    exact of_decide_eq_true h2

/-! ## Claim C4: the article id fingerprint -/

/-- An `rsshub`/`aibase` source (the only source kind, besides techcrunch, whose
entries survive parsing, see C10). -/
def aibaseCfg : SourceConfig :=
  { type' := "rsshub", name := some "aibase", keywords := [], parser_config := {}, feed_url := "" }

/-- Concrete parse dependencies: identity HTML stripper, always-failing date
parser, fixed current time. -/
def depsW : ParseDeps :=
  { stripHtml := fun s => s, parseDate := fun _ => none, now := "2026-01-01 00:00:00 UTC" }

def eT1 : Entry := { fields := [("title", "t1"), ("link", "u")], tags := [] }

def eT2 : Entry := { fields := [("title", "t2"), ("link", "u")], tags := [] }

/-- Claim C4 counterexample: two entries sharing the link `"u"` but with the
different titles `"t1"` and `"t2"` parse to articles with the *same* id — the
title does not participate in the fingerprint (the code hashes
`hashlib.md5(link.encode())` only, not link plus title). -/
theorem C4_counterexample :
    (parse_feed_entry depsW eT1 "s" aibaseCfg).map (fun a => a.title) = some "t1" ∧
    (parse_feed_entry depsW eT2 "s" aibaseCfg).map (fun a => a.title) = some "t2" ∧
    (parse_feed_entry depsW eT1 "s" aibaseCfg).map (fun a => a.link) = some "u" ∧
    (parse_feed_entry depsW eT2 "s" aibaseCfg).map (fun a => a.link) = some "u" ∧
    (parse_feed_entry depsW eT1 "s" aibaseCfg).map (fun a => a.id) =
      (parse_feed_entry depsW eT2 "s" aibaseCfg).map (fun a => a.id) := by
  refine ⟨rfl, rfl, rfl, rfl, ?_⟩
  decide

/-- Claim C4 amended: the id of every parsed article is the MD5 hex digest of the
UTF-8 encoding of the canonical link *alone* — a deterministic, stable, pure
function of `link` in which the title does not participate. -/
theorem C4_amended (d : ParseDeps) (e : Entry) (sn : String) (sc : SourceConfig) :
    (parse_feed_entry d e sn sc).map (fun a => a.id) =
      (parse_feed_entry d e sn sc).map (fun a => md5Hex (strBytes a.link)) := by
  unfold parse_feed_entry
  cases parseImage sc e <;> rfl

/-! ## Claim C10: sources whose entries can never be parsed -/

/-- On every branch of `_parse_feed_entry` other than `rsshub`+`aibase` and
`rsshub`+`techcrunch`, the local `image_url` is never assigned. -/
theorem parseImage_eq_none (sc : SourceConfig) (e : Entry)
    (h : sc.type' ≠ "rsshub" ∨ (sc.name ≠ some "aibase" ∧ sc.name ≠ some "techcrunch")) :
    parseImage sc e = none := by
  unfold parseImage
  by_cases ht : sc.type' = "rsshub"
  · rcases h with h | ⟨h1, h2⟩
    · exact absurd ht h
    · rw [if_pos ht, if_neg h1, if_neg h2]
  · rw [if_neg ht]

/-- With a parser that returns `None` on every entry, the per-entry loop never
accumulates anything. -/
theorem entriesLoop_none (parse : Entry → Option Article) (isRel : Entry → Bool)
    (hp : ∀ e, parse e = none) (es : List Entry) : ∀ acc, entriesLoop parse isRel es acc = acc := by
  induction es with
  | nil => intro acc; rfl
  | cons e rest ih =>
    intro acc
    unfold entriesLoop
    rw [hp e]
    cases hr : isRel e <;> simp only []
    · exact ih acc
    · by_cases h50 : 50 ≤ acc.length
      · simp [h50]
      · simp [h50, ih acc]

/-- Claim C10: for every source whose configured type is not `rsshub`, and every
`rsshub` source whose configured name is neither `aibase` nor `techcrunch`,
`_parse_feed_entry` returns `None` on every entry (the `image_url` local is
never assigned, the resulting `UnboundLocalError` is caught, and `None` is
returned), and consequently such a source contributes zero articles to every
fetch. -/
theorem C10_dead_sources (sc : SourceConfig)
    (h : sc.type' ≠ "rsshub" ∨ (sc.name ≠ some "aibase" ∧ sc.name ≠ some "techcrunch")) :
    (∀ d e sn, parse_feed_entry d e sn sc = none) ∧
    (∀ s : SourceFetch, s.config = sc → fetch_from_source s = []) := by
  have hp : ∀ d sn e, parse_feed_entry d e sn sc = none := by
    intro d sn e
    unfold parse_feed_entry
    rw [parseImage_eq_none sc e h]
  refine ⟨fun d e sn => hp d sn e, ?_⟩
  intro s hs
  unfold fetch_from_source fetch_from_source_body
  cases s.http with
  | error => rfl
  | resp status text =>
    by_cases h200 : status = 200
    · by_cases htxt : text = ""
      · simp [h200, htxt]
      · cases hpp : s.parsed with
        | failure => simp [h200, htxt, hpp]
        | entries es =>
          have hl : entriesLoop (fun e => parse_feed_entry s.deps e s.source_name s.config)
              (fun e => is_ai_related e s.config.keywords) es [] = [] :=
            entriesLoop_none _ _ (fun e => by rw [hs]; exact hp s.deps s.source_name e) es []
          simp [h200, htxt, hpp, hl]
    · simp [h200]

/-- Default (plain-RSS) source config. -/
def rssCfg : SourceConfig := {}

def eRss : Entry :=
  { fields := [("title", "gpt story"), ("link", "u"), ("description", "d")], tags := [] }

/-- Witness for C10 at a concrete plain-RSS source: parsing returns `None`. -/
theorem C10_dead_sources_witness : parse_feed_entry depsW eRss "s" rssCfg = none :=
  (C10_dead_sources rssCfg (Or.inl (by decide))).1 depsW eRss "s"

/-! ## Claim C7: the relevance filter -/

theorem isPre_append (n h h2 : List Char) (hp : isPre n h = true) : isPre n (h ++ h2) = true := by
  induction n generalizing h with
  | nil => rfl
  | cons a as ih =>
    cases h with
    | nil => exact absurd hp (by simp [isPre])
    | cons b bs =>
      simp only [isPre, Bool.and_eq_true] at hp ⊢
      exact ⟨hp.1, ih bs hp.2⟩

theorem containsSub_nil (h : List Char) : containsSub h [] = true := by
  induction h with
  | nil => rfl
  | cons c t ih => simp [containsSub, isPre]

theorem containsSub_append (h h2 n : List Char) (hc : containsSub h n = true) :
    containsSub (h ++ h2) n = true := by
  induction h with
  | nil =>
    simp only [containsSub] at hc
    have : n = [] := by cases n <;> simp_all
    subst this
    exact containsSub_nil h2
  | cons c t ih =>
    simp only [containsSub, Bool.or_eq_true] at hc ⊢
    rcases hc with hc | hc
    · exact Or.inl (isPre_append n (c :: t) h2 hc)
    · exact Or.inr (ih hc)

theorem strContains_append_left (a b k : String) (h : strContains a k = true) :
    strContains (a ++ b) k = true := by
  unfold strContains at h ⊢
  have hd : (a ++ b).data = a.data ++ b.data := by
    cases a
    cases b
    rfl
  rw [hd]
  exact containsSub_append a.data b.data k.data h

/-- Any keyword occurring in the lowercased title also occurs in the
concatenated text, because the title is its first component. -/
theorem strContains_textToCheck_of_title (e : Entry) (k : String)
    (h : strContains (pyLower ((e.get "title").getD "")) k = true) :
    strContains (textToCheck e) k = true := by
  unfold textToCheck
  exact strContains_append_left _ _ _ (strContains_append_left _ _ _
    (strContains_append_left _ _ _ (strContains_append_left _ _ _ h)))

/-- Claim C7 amended: `_is_ai_related` accepts an entry iff some keyword from the
union of the three hard-coded built-in keyword sets and the source's configured
set (lowercased) occurs in the concatenated lowercased title/summary/tags text —
the configured set is not the only one consulted, and the separate title check
never changes the decision. -/
theorem C7_amended (e : Entry) (kws : List String) :
    is_ai_related e kws =
      (allKeywordsLower kws).any (fun k => strContains (textToCheck e) k) := by
  unfold is_ai_related
  cases hx : (allKeywordsLower kws).any (fun k => strContains (textToCheck e) k) with
  | true => simp [hx]
  | false =>
    simp only [Bool.or_false]
    rw [Bool.eq_false_iff]
    intro ht
    rcases List.any_eq_true.mp ht with ⟨k, hk, hck⟩
    have : (allKeywordsLower kws).any (fun k => strContains (textToCheck e) k) = true :=
      List.any_eq_true.mpr ⟨k, hk, strContains_textToCheck_of_title e k hck⟩
    rw [hx] at this
    exact Bool.false_ne_true this

/-- An entry whose only text is the title `"gpt"`. -/
def eGpt : Entry := { fields := [("title", "gpt")], tags := [] }

/-- Spec-side occurrence test: the (lowercased) keyword appears in the entry's
lowercased title, summary, or tag text. -/
def kwOccursIn (k : String) (e : Entry) : Bool :=
  strContains (pyLower ((e.get "title").getD "")) (pyLower k) ||
    strContains (pyLower ((e.get "summary").getD "")) (pyLower k) ||
    e.tags.any (fun t => strContains (pyLower (t.getD "")) (pyLower k))

/-- Claim C7 counterexample: with an *empty* configured keyword set — so no
configured keyword occurs anywhere in the entry — the filter still accepts the
entry titled "gpt", via the hard-coded built-in keyword sets; the claim requires
such an entry to be rejected. -/
theorem C7_counterexample :
    (([] : List String).any (fun k => kwOccursIn k eGpt)) = false ∧
    is_ai_related eGpt [] = true := by
  constructor
  · rfl
  · decide

/-! ## Claims C1 and C6: publish idempotence -/

theorem mem_save_synced (st : NotionState) (ids : List String) (x : String) :
    x ∈ (save_synced st ids).ledger ↔ x ∈ st.ledger ∨ x ∈ ids := by
  unfold save_synced
  simp only [List.mem_append, List.mem_filter, Bool.not_eq_eq_eq_not, Bool.not_true,
    decide_eq_false_iff_not]
  constructor
  · rintro (h | ⟨h, _⟩)
    · exact Or.inl h
    · exact Or.inr h
  · rintro (h | h)
    · exact Or.inl h
    · by_cases hx : x ∈ st.ledger
      · exact Or.inl hx
      · exact Or.inr ⟨h, hx⟩

theorem add_articles_ledger_mono (st : NotionState) (p : String) (arts : List PubArticle)
    (x : String) (h : x ∈ st.ledger) : x ∈ (add_articles st p arts).1.ledger := by
  unfold add_articles
  dsimp only
  split
  · exact h
  · exact (mem_save_synced st _ x).mpr (Or.inl h)

/-- When every article id of the report is already in the loaded ledger, the
filtered set is empty and `sync_report` is a no-op returning `None`. -/
theorem sync_all_synced (st : NotionState) (r : Report) (f : String × String)
    (h : ∀ a ∈ r.articles, a.id ∈ st.ledger) :
    sync_report st r f = ⟨st, none, [], false⟩ := by
  have hn : r.articles.filter (fun a => decide (a.id ∉ st.ledger)) = [] := by
    rw [List.filter_eq_nil_iff]
    intro a ha
    simpa using h a ha
  unfold sync_report
  rw [if_pos hn]

/-- After any `sync_report` call, every article id of the report is in the
resulting ledger (the ids already present stay, and all filtered ids are saved). -/
theorem sync_ledger_superset (st : NotionState) (r : Report) (f : String × String) :
    ∀ a ∈ r.articles, a.id ∈ (sync_report st r f).state.ledger := by
  intro a ha
  unfold sync_report
  by_cases hn : r.articles.filter (fun a => decide (a.id ∉ st.ledger)) = []
  · rw [if_pos hn]
    have := (List.filter_eq_nil_iff.mp hn) a ha
    simpa using this
  · rw [if_neg hn]
    by_cases hmem : a.id ∈ st.ledger
    · cases htp : st.todayPage with
      | some pp =>
        exact (mem_save_synced _ _ _).mpr (Or.inl (add_articles_ledger_mono st pp.1 _ a.id hmem))
      | none =>
        exact (mem_save_synced _ _ _).mpr
          (Or.inl (add_articles_ledger_mono { st with todayPage := some f } f.1 _ a.id hmem))
    · have hfa : a ∈ r.articles.filter (fun x => decide (x.id ∉ st.ledger)) :=
        List.mem_filter.mpr ⟨ha, by simpa using hmem⟩
      have hid : a.id ∈ (r.articles.filter (fun x => decide (x.id ∉ st.ledger))).map PubArticle.id :=
        List.mem_map.mpr ⟨a, hfa, rfl⟩
      cases htp : st.todayPage with
      | some pp => exact (mem_save_synced _ _ _).mpr (Or.inr hid)
      | none => exact (mem_save_synced _ _ _).mpr (Or.inr hid)

/-- Claim C1: every article appended to the destination by `sync_report` has an
id that was absent from the ledger loaded at the start of the call — an id once
recorded in the ledger is never re-published. -/
theorem C1_no_republish (st : NotionState) (r : Report) (f : String × String) (a : PubArticle)
    (h : a ∈ (sync_report st r f).appended) : a.id ∉ st.ledger := by
  unfold sync_report at h
  by_cases hn : r.articles.filter (fun x => decide (x.id ∉ st.ledger)) = []
  · rw [if_pos hn] at h
    exact absurd h (by simp)
  · rw [if_neg hn] at h
    have hmem : a ∈ r.articles.filter (fun x => decide (x.id ∉ st.ledger)) := by
      cases htp : st.todayPage with
      | some pp =>
        rw [htp] at h
        simp only [add_articles] at h
        exact (List.mem_filter.mp h).1
      | none =>
        rw [htp] at h
        simp only [add_articles] at h
        exact (List.mem_filter.mp h).1
    exact of_decide_eq_true (List.mem_filter.mp hmem).2

/-- Ledger, today's page and `_article_exists` data for the C1 witness. -/
def stW1 : NotionState := { ledger := ["old"], todayPage := some ("p", "http://u"), dbArticleIds := [] }

def aW1 : PubArticle := { id := "new1", title := "t", summary := "s", url := "http://a" }

def rW1 : Report := { date := "2026-01-01", articles := [aW1] }

/-- Witness for C1: in a run that actually appends `aW1`, its id is not in the
loaded ledger. -/
theorem C1_no_republish_witness :
    aW1 ∈ (sync_report stW1 rW1 ("np", "nu")).appended ∧ aW1.id ∉ stW1.ledger :=
  ⟨by decide, C1_no_republish stW1 rW1 ("np", "nu") aW1 (by decide)⟩

/-- State and report for the C6 counterexample: the only article is already in
the ledger and a page for today exists. -/
def stC6 : NotionState := { ledger := ["i1"], todayPage := some ("p", "http://u"), dbArticleIds := [] }

def rC6 : Report := { date := "2026-01-01", articles := [{ id := "i1", title := "t" }] }

/-- Claim C6 counterexample: with every report id already in the ledger and an
existing destination page for today, `sync_report` returns `None` — not the
existing destination reference `"http://u"` the claim promises (and appends
nothing). -/
theorem C6_counterexample :
    (sync_report stC6 rC6 ("fp", "fu")).url = none ∧
    stC6.todayPage = some ("p", "http://u") ∧
    (sync_report stC6 rC6 ("fp", "fu")).appended = [] := by
  refine ⟨by decide, rfl, by decide⟩

/-- Claim C6 amended: when every article id of the Report is already in the
ledger, `sync_report` performs no write at all (state unchanged, no page
created, no blocks appended) and returns `None` rather than the existing
destination reference; consequently an identical second cycle publishes zero
articles, leaves the state unchanged and also returns `None`. -/
theorem C6_amended (st : NotionState) (r : Report) (f f2 : String × String) :
    ((∀ a ∈ r.articles, a.id ∈ st.ledger) → sync_report st r f = ⟨st, none, [], false⟩) ∧
    sync_report (sync_report st r f).state r f2 =
      ⟨(sync_report st r f).state, none, [], false⟩ :=
  ⟨sync_all_synced st r f,
   sync_all_synced (sync_report st r f).state r f2 (sync_ledger_superset st r f)⟩

/-- Witness for C6 at concrete data: all ids already synced, so the call is a
no-op returning `None`. -/
theorem C6_amended_witness :
    sync_report stC6 rC6 ("np", "nu") = ⟨stC6, none, [], false⟩ :=
  (C6_amended stC6 rC6 ("np", "nu") ("np", "nu")).1 (by decide)

/-- Witness for C8 at concrete data: a short-summary article is appended and its
summary length is within the bound. -/
theorem C8_amended_witness :
    aW1 ∈ (add_articles stW1 "p" [aW1]).2 ∧ aW1.summary.length ≤ 2000 :=
  ⟨by decide, (C8_amended apiOkSum "c" stW1 "p" [aW1] aW1).2 (by decide)⟩

/-! ## Claim C9: per-source failure isolation -/

/-- The failure modes of a single source fetch: network/timeout exception,
non-200 status, empty body, or a feed that cannot be parsed. -/
def isFailedFetch (s : SourceFetch) : Bool :=
  match s.http with
  | HttpResult.error => true
  | HttpResult.resp status text =>
    decide (status ≠ 200) || decide (text = "") ||
      (match s.parsed with
       | FeedParse.failure => true
       | FeedParse.entries _ => false)

theorem failed_fetch_empty (s : SourceFetch) (h : isFailedFetch s = true) :
    fetch_from_source s = [] := by
  unfold isFailedFetch at h
  unfold fetch_from_source fetch_from_source_body
  cases hh : s.http with
  | error => rfl
  | resp status text =>
    rw [hh] at h
    by_cases h200 : status = 200
    · by_cases htxt : text = ""
      · simp [htxt]
      · cases hpp : s.parsed with
        | failure => simp [h200, htxt, hpp]
        | entries es =>
          rw [hpp] at h
          simp [h200, htxt] at h
    · simp [h200]

/-- Claim C9: a failing source never raises out of the batch fetch and
contributes zero articles, and the batch result consists exactly of the
deduplicated concatenation of the non-failing sources' article lists. -/
theorem C9_isolation (inputs : List SourceFetch) :
    (∀ s ∈ inputs, isFailedFetch s = true → fetch_from_source s = []) ∧
    fetch_news inputs =
      deduplicate_articles
        (((inputs.filter (fun s => !(isFailedFetch s))).map fetch_from_source).flatten) := by
  refine ⟨fun s _ hf => failed_fetch_empty s hf, ?_⟩
  unfold fetch_news
  congr 1
  induction inputs with
  | nil => rfl
  | cons s rest ih =>
    by_cases hf : isFailedFetch s = true
    · simp only [List.map_cons, List.flatten_cons, failed_fetch_empty s hf, List.nil_append,
        List.filter_cons, hf, Bool.not_true]
      exact ih
    · have hf2 : isFailedFetch s = false := by revert hf; cases isFailedFetch s <;> simp
      simp only [List.map_cons, List.flatten_cons, List.filter_cons, hf2, Bool.not_false,
        if_pos trivial, List.map_cons, List.flatten_cons]
      rw [ih]

/-- A source whose fetch dies with a network error. -/
def sFail : SourceFetch :=
  { source_name := "bad", config := rssCfg, deps := depsW,
    http := HttpResult.error, parsed := FeedParse.failure }

/-- Witness for C9: the failing source contributes zero articles. -/
theorem C9_isolation_witness : fetch_from_source sFail = [] :=
  (C9_isolation [sFail]).1 sFail (List.mem_singleton.mpr rfl) rfl

/-! ## Claim C5: deduplication and ordering -/

/-- Reference form of the dedup pass: keep the first article of each *non-empty*
link, drop every article with an empty link (the Python truthiness guard
`if article['link'] and ...`). -/
def firstSeenSpec : List Article → List Article
  | [] => []
  | a :: rest =>
    if a.link = "" then firstSeenSpec rest
    else a :: firstSeenSpec (rest.filter (fun b => decide (b.link ≠ a.link)))
termination_by l => l.length
decreasing_by
  · simp only [List.length_cons]
    omega
  · simp only [List.length_cons]
    exact Nat.lt_succ_of_le (List.length_filter_le _ _)

theorem firstSeenSpec_nil : firstSeenSpec [] = [] := by
  rw [firstSeenSpec.eq_def]

theorem firstSeenSpec_cons (a : Article) (rest : List Article) :
    firstSeenSpec (a :: rest) =
      if a.link = "" then firstSeenSpec rest
      else a :: firstSeenSpec (rest.filter (fun b => decide (b.link ≠ a.link))) := by
  rw [firstSeenSpec.eq_def]

theorem dedupAux_eq (l : List Article) : ∀ seen : List String,
    dedupAux seen l = firstSeenSpec (l.filter (fun a => decide (a.link ∉ seen))) := by
  induction l with
  | nil => intro seen; rw [List.filter_nil, firstSeenSpec_nil]; rfl
  | cons a rest ih =>
    intro seen
    by_cases hseen : a.link ∈ seen
    · have hcond : ¬(a.link ≠ "" ∧ a.link ∉ seen) := fun hc => hc.2 hseen
      have hpa : decide (a.link ∉ seen) = false := by simpa using hseen
      simp only [dedupAux, if_neg hcond, List.filter_cons, hpa]
      exact ih seen
    · by_cases hlink : a.link = ""
      · have hcond : ¬(a.link ≠ "" ∧ a.link ∉ seen) := fun hc => hc.1 hlink
        have hpa : decide (a.link ∉ seen) = true := by simpa using hseen
        simp only [dedupAux, if_neg hcond, List.filter_cons, hpa]
        rw [if_pos trivial, firstSeenSpec_cons, if_pos hlink]
        exact ih seen
      · have hcond : a.link ≠ "" ∧ a.link ∉ seen := ⟨hlink, hseen⟩
        have hpa : decide (a.link ∉ seen) = true := by simpa using hseen
        simp only [dedupAux, if_pos hcond, List.filter_cons, hpa]
        rw [if_pos trivial, firstSeenSpec_cons, if_neg hlink]
        rw [ih (a.link :: seen)]
        congr 1
        rw [List.filter_filter]
        congr 1
        apply List.filter_congr
        intro b _
        simp only [List.mem_cons, not_or, Bool.decide_and, decide_not]

theorem dedup_firstSeen (l : List Article) : dedupAux [] l = firstSeenSpec l := by
  rw [dedupAux_eq l []]
  congr 1
  apply List.filter_eq_self.mpr
  intro a _
  simp

theorem mem_insertDescPD {x a : Article} : ∀ {l : List Article},
    x ∈ insertDescPD a l → x = a ∨ x ∈ l := by
  intro l
  induction l with
  | nil =>
    intro h
    simp only [insertDescPD, List.mem_singleton] at h
    exact Or.inl h
  | cons b bs ih =>
    intro h
    simp only [insertDescPD] at h
    split at h
    · rcases List.mem_cons.mp h with h | h
      · exact Or.inl h
      · exact Or.inr h
    · rcases List.mem_cons.mp h with h | h
      · exact Or.inr (List.mem_cons.mpr (Or.inl h))
      · rcases ih h with h | h
        · exact Or.inl h
        · exact Or.inr (List.mem_cons.mpr (Or.inr h))

theorem pairwise_insertDescPD (a : Article) (l : List Article)
    (h : l.Pairwise (fun x y => y.published_date ≤ x.published_date)) :
    (insertDescPD a l).Pairwise (fun x y => y.published_date ≤ x.published_date) := by
  induction l with
  | nil => simp [insertDescPD]
  | cons b bs ih =>
    rcases List.pairwise_cons.mp h with ⟨hb, hbs⟩
    simp only [insertDescPD]
    by_cases hba : b.published_date ≤ a.published_date
    · rw [if_pos hba]
      refine List.pairwise_cons.mpr ⟨?_, h⟩
      intro y hy
      rcases List.mem_cons.mp hy with rfl | hy
      · exact hba
      · exact le_trans (hb y hy) hba
    · rw [if_neg hba]
      refine List.pairwise_cons.mpr ⟨?_, ih hbs⟩
      intro y hy
      rcases mem_insertDescPD hy with rfl | hy
      · exact le_of_not_le hba
      · exact hb y hy

theorem pairwise_sortByDateDesc (l : List Article) :
    (sortByDateDesc l).Pairwise (fun x y => y.published_date ≤ x.published_date) := by
  induction l with
  | nil => simp [sortByDateDesc]
  | cons x xs ih => exact pairwise_insertDescPD x (sortByDateDesc xs) ih

theorem filter_insertDescPD (a : Article) (l : List Article) (d : String) :
    (insertDescPD a l).filter (fun x => decide (x.published_date = d)) =
      if a.published_date = d then
        a :: l.filter (fun x => decide (x.published_date = d))
      else l.filter (fun x => decide (x.published_date = d)) := by
  induction l with
  | nil =>
    by_cases had : a.published_date = d
    · simp [insertDescPD, List.filter_cons, had]
    · simp [insertDescPD, List.filter_cons, had]
  | cons b bs ih =>
    simp only [insertDescPD]
    by_cases hba : b.published_date ≤ a.published_date
    · rw [if_pos hba]
      by_cases had : a.published_date = d
      · simp [List.filter_cons, had]
      · simp [List.filter_cons, had]
    · rw [if_neg hba]
      rw [List.filter_cons, ih]
      by_cases had : a.published_date = d
      · have hbd : ¬b.published_date = d := by
          intro hbd
          exact hba (le_of_eq (hbd.trans had.symm))
        simp [had, hbd, List.filter_cons]
      · by_cases hbd : b.published_date = d
        · simp [had, hbd, List.filter_cons]
        · simp [had, hbd, List.filter_cons]

theorem filter_sortByDateDesc (l : List Article) (d : String) :
    (sortByDateDesc l).filter (fun x => decide (x.published_date = d)) =
      l.filter (fun x => decide (x.published_date = d)) := by
  induction l with
  | nil => rfl
  | cons x xs ih =>
    simp only [sortByDateDesc]
    rw [filter_insertDescPD, List.filter_cons]
    by_cases hxd : x.published_date = d
    · simp [hxd, ih]
    · simp [hxd, ih]

/-- Claim C5 amended: `_deduplicate_articles` keeps the first-seen article for
each *non-empty* link and drops every article whose link is empty
(`dedupAux [] l = firstSeenSpec l`); the survivors are returned sorted by
`published_date` descending (the `Pairwise` conjunct), and the sort is stable —
for each date value, the output lists exactly the survivors with that date in
their original fetch order (the filter conjunct, which together with sortedness
uniquely determines the output). -/
theorem C5_amended (l : List Article) :
    (deduplicate_articles l).Pairwise (fun a b => b.published_date ≤ a.published_date) ∧
    (∀ d : String,
      (deduplicate_articles l).filter (fun x => decide (x.published_date = d)) =
        (firstSeenSpec l).filter (fun x => decide (x.published_date = d))) ∧
    dedupAux [] l = firstSeenSpec l := by
  refine ⟨pairwise_sortByDateDesc _, ?_, dedup_firstSeen l⟩
  intro d
  unfold deduplicate_articles
  rw [filter_sortByDateDesc, dedup_firstSeen]

/-- An article whose link is the empty string. -/
def emptyLinkArticle : Article :=
  { id := "i", title := "t", content := "c", summary := "", link := "",
    source := "s", image_url := "", published_date := "2025-01-01 00:00:00 UTC" }

/-- Claim C5 counterexample: an article with an empty link is not kept as the
first-seen article of its link group — it is dropped entirely (the Python
truthiness guard `if article['link'] and ...`), so the output is `[]` where the
claim requires `[emptyLinkArticle]`. -/
theorem C5_counterexample : deduplicate_articles [emptyLinkArticle] = [] := by decide

end AIGptGod
